import Mathlib

/-!
Shallow embedding of the cluster-membership registry facade of go-doudou
(`framework/registry/node.go`) together with proofs about its behaviour.

Go machine integers are modelled as `Int` (no value in scope approaches
overflow), durations as `Int` nanoseconds, byte strings as `String` /
`List Char`, maps as association lists, and fallible Go functions as
`Except String`-valued Lean functions.  The package-level mutable
variables (`mlist`, `events`) become an explicit `RegistryState` threaded
through the facade operations.  External effects (the result of
`memberlist.Create`, `mlist.Join`, clocks, build info, the process
environment) are inputs gathered in `World` / `Env` structures.
-/

/-- Member states of the embedded memberlist fork:
Alive, Suspect, Dead, Left. -/
inductive NodeState where
  | alive
  | suspect
  | dead
  | left
deriving DecidableEq, Repr

/-- The framework-defined half of a node's meta payload
(`nodeMeta` in node.go). `registerAt` is an abstract timestamp. -/
structure nodeMeta where
  service : String
  routeRootPath : String
  port : Int
  registerAt : Option Nat
  goVer : String
  gddVer : String
  buildUser : String
  buildTime : String
  weight : Int
deriving DecidableEq, Repr

/-- User data mapping `map[string]interface{}`, modelled as an association
list with opaque (string-rendered) values. -/
abbrev UserData := List (String × String)

/-- `mergedMeta` in node.go: framework meta plus free-form user data. -/
structure mergedMeta where
  meta : nodeMeta
  data : UserData
deriving DecidableEq, Repr

/-- The Go zero value of `mergedMeta` (`var mm mergedMeta`). -/
def mergedMeta.zero : mergedMeta :=
  { meta := { service := "", routeRootPath := "", port := 0, registerAt := none,
              goVer := "", gddVer := "", buildUser := "", buildTime := "", weight := 0 },
    data := [] }

deriving instance DecidableEq for Except

/-- A memberlist node.  `node.Meta` (the raw JSON bytes) is abstracted by
the outcome of `json.Unmarshal` on it: `none` models empty meta bytes,
`some r` models non-empty bytes whose unmarshalling result is `r`. -/
structure Node where
  name : String
  addr : String
  port : Nat
  state : NodeState
  meta : Option (Except String mergedMeta)
deriving DecidableEq, Repr

/-- The membership engine handle.  `nodes` is the membership table,
`localNode` the local entry. -/
structure Memberlist where
  nodes : List Node
  localNode : Node
deriving DecidableEq, Repr

/-- Modelled from the spec: `Memberlist.Members` lives in the repository's
internal memberlist fork, which is not among the provided sources.  Per the
spec (§4.8 `AllNodes`, and the comment on `AllNodes` in node.go), it
returns the membership-table entries whose state is not Dead and not
Left. -/
def Memberlist.Members (m : Memberlist) : List Node :=
  m.nodes.filter (fun n => decide (n.state ≠ NodeState.dead ∧ n.state ≠ NodeState.left))

/-- The package-level mutable state of the registry facade: the global
`mlist` pointer (`none` = nil) and the event delegate's registered
service-provider subscribers (observers modelled by opaque ids). -/
structure RegistryState where
  mlist : Option Memberlist
  serviceProviders : List Nat
deriving DecidableEq, Repr

/-- `AllNodes` from node.go: errs when `mlist` is nil, otherwise collects
every node returned by `mlist.Members()`. -/
def AllNodes (st : RegistryState) : Except String (List Node) :=
  match st.mlist with
  | none => .error "mlist is nil"
  | some m => .ok (m.Members.foldl (fun acc n => acc ++ [n]) [])

/-- `LocalNode` from node.go: returns nil when `mlist` is nil, otherwise
`mlist.LocalNode()`.  Its Go signature has no error result. -/
def LocalNode (st : RegistryState) : Option Node :=
  match st.mlist with
  | none => none
  | some m => some m.localNode

/-- `Shutdown` from node.go: if `mlist` is non-nil, shut it down and set it
to nil; otherwise do nothing. -/
def Shutdown (st : RegistryState) : RegistryState :=
  match st.mlist with
  | none => st
  | some _ => { st with mlist := none }

/-- `RegisterServiceProvider` from node.go: when `mlist` is nil it returns
immediately; otherwise it calls `sp.AddNode` on every member and appends
`sp` to the event delegate's subscriber list.  The second component records
the sequence of nodes passed to `AddNode`. -/
def RegisterServiceProvider (st : RegistryState) (sp : Nat) : RegistryState × List Node :=
  match st.mlist with
  | none => (st, [])
  | some m =>
      ({ st with serviceProviders := st.serviceProviders ++ [sp] }, m.Members)

/-- `newMeta` from node.go: empty meta bytes yield the zero `mergedMeta`;
non-empty bytes are unmarshalled, a failure being wrapped. -/
def newMeta (node : Node) : Except String mergedMeta :=
  match node.meta with
  | none => .ok mergedMeta.zero
  | some (.ok mm) => .ok mm
  | some (.error e) => .error ("Unmarshal node meta failed, not a valid json: " ++ e)

/-- `BaseUrl` from node.go: `fmt.Sprintf("http://%s:%d%s", node.Addr,
mm.Meta.Port, mm.Meta.RouteRootPath)` after a successful `newMeta`. -/
def BaseUrl (node : Node) : Except String String :=
  match newMeta node with
  | .error e => .error e
  | .ok mm => .ok ("http://" ++ node.addr ++ ":" ++ toString mm.meta.port ++ mm.meta.routeRootPath)

/-- Value of decimal digit characters read most-significant first. -/
def digitsVal (cs : List Char) : Nat :=
  cs.foldl (fun acc c => 10 * acc + (c.toNat - 48)) 0

/-- Model of Go `strconv.Atoi` (and of the repository's `cast.ToIntE`
wrapper on strings, modelled from the spec as decimal-integer parsing):
an optional sign followed by at least one decimal digit; anything else is
an error (`none`).  Overflow is ignored, no value in scope approaches it. -/
def atoi? (s : String) : Option Int :=
  match s.data with
  | [] => none
  | c :: rest =>
    let neg := c = '-'
    let digits := if c = '-' ∨ c = '+' then rest else c :: rest
    if digits.isEmpty then none
    else if digits.all Char.isDigit then
      some (if neg then -(Int.ofNat (digitsVal digits)) else Int.ofNat (digitsVal digits))
    else none

/-- Index of the last `':'` in a character list, `-1` when absent
(Go `strings.LastIndex(seed, ":")`). -/
def lastColonIdx : List Char → Int
  | [] => -1
  | c :: cs =>
    let r := lastColonIdx cs
    if r ≥ 0 then r + 1 else if c = ':' then 0 else -1

/-- Modelled from the spec: default membership port `MEM_PORT` = 7946
(config constant `DefaultGddMemPort`, whose defining package is not among
the provided sources). -/
def DefaultGddMemPort : Int := 7946

/-- Body of the per-entry loop of `seeds` in node.go, over the entry's
characters: find the last colon; if none, append the default port; if the
colon is followed by a non-empty suffix, replace the suffix by its parsed
integer value, or by the default port when it does not parse; if the colon
is the last character, leave the entry unchanged. -/
def seedEntryCore (cs : List Char) : List Char :=
  let li := lastColonIdx cs
  if li < 0 then cs ++ (":" ++ toString DefaultGddMemPort).data
  else if li.toNat + 1 < cs.length then
    match atoi? (String.mk (cs.drop (li.toNat + 1))) with
    | none => cs.take li.toNat ++ (":" ++ toString DefaultGddMemPort).data
    | some port => cs.take li.toNat ++ (":" ++ toString port).data
  else cs

/-- Model of Go `strings.Split(s, ",")` over characters: cut at every
comma; always returns at least one (possibly empty) piece. -/
def splitComma : List Char → List (List Char)
  | [] => [[]]
  | c :: cs =>
    match splitComma cs with
    | [] => [[c]]
    | h :: t => if c = ',' then [] :: h :: t else (c :: h) :: t

/-- `seeds` from node.go: nil on the empty string, otherwise split the
seed string on commas and rewrite each entry with `seedEntryCore`. -/
def seeds (seedstr : String) : List String :=
  if seedstr = "" then []
  else (splitComma seedstr.data).map (fun cs => String.mk (seedEntryCore cs))

/-- The process environment feeding the `GDD_*` configuration keys
(each field is the raw `Load()`ed string, empty when unset), plus the OS
hostname used by the configuration builder. -/
structure Env where
  serviceName : String
  port : String
  rootPath : String
  memSeed : String
  memName : String
  memHost : String
  memPort : String
  memWeight : String
  memWeightInterval : String
  memGossipInterval : String
  memProbeInterval : String
  memProbeTimeout : String
  memTcpTimeout : String
  memSyncInterval : String
  memDeadTimeout : String
  memReclaimTimeout : String
  memIndirectChecks : String
  memSuspicionMult : String
  memGossipNodes : String
  memLogDisable : String
  logLevel : String
  hostname : String
deriving DecidableEq, Repr

/-- An environment with every variable unset. -/
def emptyEnv : Env :=
  { serviceName := "", port := "", rootPath := "", memSeed := "", memName := "",
    memHost := "", memPort := "", memWeight := "", memWeightInterval := "",
    memGossipInterval := "", memProbeInterval := "", memProbeTimeout := "",
    memTcpTimeout := "", memSyncInterval := "", memDeadTimeout := "",
    memReclaimTimeout := "", memIndirectChecks := "", memSuspicionMult := "",
    memGossipNodes := "", memLogDisable := "", logLevel := "", hostname := "" }

/-- The membership port as computed in `newConf` (node.go lines 265-269):
the configured `GDD_MEM_PORT` when it parses as an integer, else the
default. -/
def memPortOf (env : Env) : Int :=
  match atoi? env.memPort with
  | some m => m
  | none => DefaultGddMemPort

/-- Nanosecond value of a Go duration-unit token (`unitMap` in Go's
time package). -/
def durUnitNs (u : String) : Option Int :=
  match u with
  | "ns" => some 1
  | "us" => some 1000
  | "µs" => some 1000
  | "μs" => some 1000
  | "ms" => some 1000000
  | "s" => some 1000000000
  | "m" => some 60000000000
  | "h" => some 3600000000000
  | _ => none

/-- One `number [fraction] unit` group after another, as in the loop of Go
`time.ParseDuration`; `fuel` bounds the recursion (each group consumes at
least its one-character unit).  The fractional part is computed with exact
integer division where Go uses float64 — equal on all inputs in scope. -/
def parseDurChunks : Nat → List Char → Option Int
  | _, [] => some 0
  | 0, _ :: _ => none
  | fuel + 1, c :: cs =>
    if ¬ (c = '.' ∨ c.isDigit) then none
    else
      let cs0 := c :: cs
      let intDigits := cs0.takeWhile Char.isDigit
      let s1 := cs0.dropWhile Char.isDigit
      let v : Int := Int.ofNat (digitsVal intDigits)
      let pre := ¬ intDigits.isEmpty
      let hasDot := s1.head? = some '.'
      let fracSrc := if hasDot then s1.tail else s1
      let fracDigits := if hasDot then fracSrc.takeWhile Char.isDigit else []
      let s2 := if hasDot then fracSrc.dropWhile Char.isDigit else s1
      let post := hasDot ∧ ¬ fracDigits.isEmpty
      if ¬ pre ∧ ¬ post then none
      else
        let unitChars := s2.takeWhile (fun ch => ¬ (ch = '.' ∨ ch.isDigit))
        let s3 := s2.dropWhile (fun ch => ¬ (ch = '.' ∨ ch.isDigit))
        if unitChars.isEmpty then none
        else
          match durUnitNs (String.mk unitChars) with
          | none => none
          | some unit =>
            let f : Int := Int.ofNat (digitsVal fracDigits)
            let scale : Int := Int.ofNat (10 ^ fracDigits.length)
            let vn := v * unit + (if f > 0 then f * unit / scale else 0)
            match parseDurChunks fuel s3 with
            | none => none
            | some rest => some (vn + rest)

/-- Model of Go `time.ParseDuration`: an optional sign, the special case
`"0"`, then one or more `[0-9]*(\.[0-9]*)?unit` groups whose values add
up; the result is in nanoseconds.  Overflow checks are omitted. -/
def goParseDuration (s : String) : Option Int :=
  let cs := s.data
  let neg := cs.head? = some '-'
  let cs1 := if cs.head? = some '-' ∨ cs.head? = some '+' then cs.tail else cs
  if cs1 = ['0'] then some 0
  else if cs1.isEmpty then none
  else
    match parseDurChunks (cs1.length + 1) cs1 with
    | none => none
    | some d => some (if neg then -d else d)

/-- Model of Go `strconv.ParseBool` (via the repository's `cast.ToBoolE`,
modelled from the spec). -/
def parseBool? (s : String) : Option Bool :=
  match s with
  | "1" | "t" | "T" | "TRUE" | "true" | "True" => some true
  | "0" | "f" | "F" | "FALSE" | "false" | "False" => some false
  | _ => none

/-- Modelled from the spec (§4.1, §6): default configuration constants of
the config package, which is not among the provided sources.  The duration
defaults are the duration strings parsed by `newConf`. -/
def DefaultGddMemDeadTimeout : String := "30s"

/-- Modelled from the spec: default push/pull (sync) interval. -/
def DefaultGddMemSyncInterval : String := "30s"

/-- Modelled from the spec: default dead-node reclaim time (0 = never). -/
def DefaultGddMemReclaimTimeout : String := "0s"

/-- Modelled from the spec: default probe interval. -/
def DefaultGddMemProbeInterval : String := "1s"

/-- Modelled from the spec: default probe timeout. -/
def DefaultGddMemProbeTimeout : String := "500ms"

/-- Modelled from the spec: default gossip interval. -/
def DefaultGddMemGossipInterval : String := "200ms"

/-- Modelled from the spec: default TCP timeout. -/
def DefaultGddMemTCPTimeout : String := "10s"

/-- Modelled from the spec: default pinned weight (0 = auto). -/
def DefaultGddMemWeight : Int := 0

/-- Modelled from the spec: default weight-recomputation interval (a
duration constant, assigned directly in `newConf`); the spec states no
value, the claims proved below do not depend on it. -/
def DefaultGddMemWeightInterval : Int := 0

/-- Modelled from the spec: default indirect-check count. -/
def DefaultGddMemIndirectChecks : Int := 3

/-- Modelled from the spec: default suspicion multiplier. -/
def DefaultGddMemSuspicionMult : Int := 4

/-- Modelled from the spec: default gossip fan-out. -/
def DefaultGddMemGossipNodes : Int := 3

/-- Modelled from the spec: default log level. -/
def DefaultGddLogLevel : String := "INFO"

/-- Modelled from the spec: memberlist logging enabled by default. -/
def DefaultGddMemLogDisable : Bool := false

/-- Nanoseconds per second (implicit unit of most duration options). -/
def secNs : Int := 1000000000

/-- Nanoseconds per millisecond (implicit unit of the gossip and weight
intervals). -/
def msNs : Int := 1000000

/-- `cfg.X, _ = time.ParseDuration(defaultString)`: the parsed default,
0 on a parse failure (the Go code discards the error). -/
def defaultDur (s : String) : Int :=
  match goParseDuration s with
  | some d => d
  | none => 0

/-- The per-field pattern repeated throughout `newConf` (node.go): keep
the default when the environment string is empty; otherwise try
`strconv.Atoi` and scale by the field's implicit unit; otherwise try
`time.ParseDuration`; keep the default when both fail.  (The emptiness
test models `stringutils.IsNotEmpty`.) -/
def durFromEnv (s : String) (dflt unitNs : Int) : Int :=
  if s = "" then dflt
  else
    match atoi? s with
    | some n => n * unitNs
    | none =>
      match goParseDuration s with
      | some d => d
      | none => dflt

/-- The effective pinned weight: `GDD_MEM_WEIGHT` when it parses as an
integer, else the default (node.go lines 232-235 and 311-314). -/
def effWeight (env : Env) : Int :=
  match atoi? env.memWeight with
  | some w => w
  | none => DefaultGddMemWeight

/-- The memberlist configuration fields set by `newConf` (durations in
nanoseconds). -/
structure MemberConf where
  indirectChecks : Int
  logMinLevel : String
  logDisabled : Bool
  gossipToTheDeadTime : Int
  pushPullInterval : Int
  deadNodeReclaimTime : Int
  probeInterval : Int
  probeTimeout : Int
  suspicionMult : Int
  gossipNodes : Int
  gossipInterval : Int
  weightInterval : Int
  tcpTimeout : Int
  name : String
  bindPort : Int
  advertisePort : Int
  advertiseAddr : String
  retransmitMult : Int
deriving DecidableEq, Repr

/-- `newConf` from node.go.  The baseline is `memberlist.DefaultWANConfig`
(modelled from the spec: the fork's config package is not among the
provided sources; of its baseline values only `RetransmitMult` = 4 and the
hostname default for `Name` are carried, the rest being overwritten
here). -/
def newConf (env : Env) : MemberConf :=
  let minLevel :=
    if env.logLevel ≠ "" then
      let u := env.logLevel.toUpper
      if u = "ERROR" then "ERR" else if u = "WARNING" then "WARN" else u
    else DefaultGddLogLevel
  let disable :=
    match parseBool? env.memLogDisable with
    | some d => d
    | none => DefaultGddMemLogDisable
  let memport := memPortOf env
  { indirectChecks :=
      match atoi? env.memIndirectChecks with
      | some i => i
      | none => DefaultGddMemIndirectChecks
    logMinLevel := minLevel
    logDisabled := disable
    gossipToTheDeadTime :=
      durFromEnv env.memDeadTimeout (defaultDur DefaultGddMemDeadTimeout) secNs
    pushPullInterval :=
      durFromEnv env.memSyncInterval (defaultDur DefaultGddMemSyncInterval) secNs
    deadNodeReclaimTime :=
      durFromEnv env.memReclaimTimeout (defaultDur DefaultGddMemReclaimTimeout) secNs
    probeInterval :=
      durFromEnv env.memProbeInterval (defaultDur DefaultGddMemProbeInterval) secNs
    probeTimeout :=
      durFromEnv env.memProbeTimeout (defaultDur DefaultGddMemProbeTimeout) secNs
    suspicionMult :=
      match atoi? env.memSuspicionMult with
      | some i => i
      | none => DefaultGddMemSuspicionMult
    gossipNodes :=
      match atoi? env.memGossipNodes with
      | some i => i
      | none => DefaultGddMemGossipNodes
    gossipInterval :=
      durFromEnv env.memGossipInterval (defaultDur DefaultGddMemGossipInterval) msNs
    weightInterval :=
      if effWeight env > 0 then 0
      else durFromEnv env.memWeightInterval DefaultGddMemWeightInterval msNs
    tcpTimeout :=
      durFromEnv env.memTcpTimeout (defaultDur DefaultGddMemTCPTimeout) secNs
    name := if env.memName ≠ "" then env.memName else env.hostname
    bindPort := memport
    advertisePort := memport
    advertiseAddr :=
      if env.memHost ≠ "" then
        if env.memHost.startsWith "." then env.hostname ++ env.memHost else env.memHost
      else ""
    retransmitMult := 4 }

/-- A state whose engine was never created (or was shut down): `mlist` nil. -/
def nilState : RegistryState := { mlist := none, serviceProviders := [] }

/-- A sample node for witnesses. -/
def sampleNode : Node :=
  { name := "n1", addr := "127.0.0.1", port := 7946, state := NodeState.alive,
    meta := some (.ok { mergedMeta.zero with
      meta := { mergedMeta.zero.meta with service := "svc", routeRootPath := "/", port := 6060 } }) }

/-- A dead node for witnesses. -/
def deadNode : Node :=
  { name := "n2", addr := "127.0.0.2", port := 7946, state := NodeState.dead, meta := none }

/-- A left node for witnesses. -/
def leftNode : Node :=
  { name := "n3", addr := "127.0.0.3", port := 7946, state := NodeState.left, meta := none }

/-- A suspect node for witnesses. -/
def suspectNode : Node :=
  { name := "n4", addr := "127.0.0.4", port := 7946, state := NodeState.suspect, meta := none }

/-- A sample memberlist containing one node of each state. -/
def sampleMlist : Memberlist :=
  { nodes := [sampleNode, deadNode, leftNode, suspectNode], localNode := sampleNode }

theorem allNodes_foldl_append (l acc : List Node) :
    l.foldl (fun acc n => acc ++ [n]) acc = acc ++ l := by
  induction l generalizing acc with
  | nil => simp
  | cons x xs ih => simp [List.foldl, ih]

/-- Claim C1: whenever the membership engine exists (`mlist` non-nil),
`AllNodes` succeeds and returns exactly the membership-table entries whose
state is not Dead and not Left, and no returned node is Dead or Left. -/
theorem allNodes_excludes_dead_and_left (st : RegistryState) (m : Memberlist)
    (h : st.mlist = some m) :
    AllNodes st =
      .ok (m.nodes.filter (fun n => decide (n.state ≠ NodeState.dead ∧ n.state ≠ NodeState.left))) ∧
    ∀ ns, AllNodes st = .ok ns →
      ∀ n ∈ ns, n.state ≠ NodeState.dead ∧ n.state ≠ NodeState.left := by
  constructor
  · simp [AllNodes, h, Memberlist.Members, allNodes_foldl_append]
  · intro ns hns n hn
    simp [AllNodes, h, allNodes_foldl_append] at hns
    subst hns
    simp [Memberlist.Members, List.mem_filter] at hn
    exact hn.2

/-- Witness for C1 at a concrete state: the dead and left nodes are
filtered out, the alive and suspect nodes are kept. -/
theorem allNodes_excludes_dead_and_left_witness :
    AllNodes { mlist := some sampleMlist, serviceProviders := [] } =
      .ok [sampleNode, suspectNode] := by
  have h := allNodes_excludes_dead_and_left
    { mlist := some sampleMlist, serviceProviders := [] } sampleMlist rfl
  exact h.1.trans (by decide)

/-- Counterexample to claim C4 as stated: with `mlist` nil, `AllNodes`
does return an error, but `LocalNode` returns the nil pointer (`none`)
without any error — its Go signature has no error result at all, so it
returns silently rather than reporting a StateError. -/
theorem localNode_nil_silent :
    LocalNode nilState = none ∧ AllNodes nilState = .error "mlist is nil" := by
  constructor <;> rfl

/-- Claim C4 (amended): while `mlist` is nil — before `NewNode` or after
`Shutdown`, and `Shutdown` does leave `mlist` nil — `AllNodes` returns the
"mlist is nil" error, whereas `LocalNode` silently returns the nil
pointer. -/
theorem stateError_on_nil_mlist (st : RegistryState) (h : st.mlist = none) :
    AllNodes st = .error "mlist is nil" ∧
    LocalNode st = none ∧
    (Shutdown st).mlist = none ∧
    ∀ st' : RegistryState, (Shutdown st').mlist = none := by
  refine ⟨by simp [AllNodes, h], by simp [LocalNode, h], by simp [Shutdown, h], ?_⟩
  intro st'
  cases h' : st'.mlist with
  | none => simp [Shutdown, h']
  | some m => simp [Shutdown, h']

/-- Witness for C4 (amended) at the concrete nil state. -/
theorem stateError_on_nil_mlist_witness :
    AllNodes nilState = .error "mlist is nil" ∧ LocalNode nilState = none := by
  have h := stateError_on_nil_mlist nilState rfl
  exact ⟨h.1, h.2.1⟩

/-- Claim C5: for every node whose meta bytes decode to a `mergedMeta`,
`BaseUrl` returns `"http://" ++ Addr ++ ":" ++ meta port ++ route root
path`. -/
theorem baseUrl_format (node : Node) (mm : mergedMeta) (h : newMeta node = .ok mm) :
    BaseUrl node =
      .ok ("http://" ++ node.addr ++ ":" ++ toString mm.meta.port ++ mm.meta.routeRootPath) := by
  simp [BaseUrl, h]

/-- Witness for C5 at a concrete node. -/
theorem baseUrl_format_witness :
    BaseUrl sampleNode = .ok "http://127.0.0.1:6060/" := by
  have h := baseUrl_format sampleNode
    { mergedMeta.zero with
      meta := { mergedMeta.zero.meta with service := "svc", routeRootPath := "/", port := 6060 } }
    (by rfl)
  exact h.trans (by rfl)

/-- Claim C10: `RegisterServiceProvider` on a state with nil `mlist`
returns with no effect: the state (in particular the subscriber list) is
unchanged, no `AddNode` call is made, and there is no error channel. -/
theorem registerServiceProvider_nil_noop (st : RegistryState) (sp : Nat)
    (h : st.mlist = none) :
    RegisterServiceProvider st sp = (st, []) := by
  simp [RegisterServiceProvider, h]

/-- Witness for C10 at the concrete nil state. -/
theorem registerServiceProvider_nil_noop_witness :
    RegisterServiceProvider nilState 7 = (nilState, []) :=
  registerServiceProvider_nil_noop nilState 7 rfl

theorem lastColonIdx_of_not_mem (cs : List Char) (h : ':' ∉ cs) :
    lastColonIdx cs = -1 := by
  induction cs with
  | nil => rfl
  | cons c cs ih =>
    have hc : c ≠ ':' := fun hh => h (by simp [hh])
    have hcs : ':' ∉ cs := fun hm => h (List.mem_cons_of_mem _ hm)
    simp [lastColonIdx, ih hcs, hc]

theorem lastColonIdx_append (hs ss : List Char) (h : ':' ∉ ss) :
    lastColonIdx (hs ++ ':' :: ss) = (hs.length : Int) := by
  induction hs with
  | nil => simp [lastColonIdx, lastColonIdx_of_not_mem ss h]
  | cons c hs ih =>
    show (if lastColonIdx (hs ++ ':' :: ss) ≥ 0 then lastColonIdx (hs ++ ':' :: ss) + 1
          else if c = ':' then 0 else -1) = ((c :: hs).length : Int)
    rw [ih]
    have h0 : ((hs.length : Int) ≥ 0) := by positivity
    rw [if_pos h0]
    simp

theorem seedEntryCore_no_colon (cs : List Char) (h : ':' ∉ cs) :
    seedEntryCore cs = cs ++ (":" ++ toString DefaultGddMemPort).data := by
  have h1 : lastColonIdx cs = -1 := lastColonIdx_of_not_mem cs h
  simp [seedEntryCore, h1]

theorem seedEntryCore_with_colon (hs ss : List Char) (h : ':' ∉ ss) :
    seedEntryCore (hs ++ ':' :: ss) =
      if ss = [] then hs ++ [':']
      else
        match atoi? (String.mk ss) with
        | none => hs ++ (":" ++ toString DefaultGddMemPort).data
        | some n => hs ++ (":" ++ toString n).data := by
  have hli := lastColonIdx_append hs ss h
  have hnn : ¬ ((hs.length : Int) < 0) := by omega
  have htn : (hs.length : Int).toNat = hs.length := Int.toNat_natCast _
  have hdrop : (hs ++ ':' :: ss).drop (hs.length + 1) = ss := by
    have he : hs ++ ':' :: ss = (hs ++ [':']) ++ ss := by simp
    have hl : (hs ++ [':']).length = hs.length + 1 := by simp
    rw [he, ← hl, List.drop_left]
  have htake : (hs ++ ':' :: ss).take hs.length = hs := List.take_left hs (':' :: ss)
  simp only [seedEntryCore]
  rw [hli, if_neg hnn, htn]
  by_cases hss : ss = []
  · subst hss
    have hlen : ¬ (hs.length + 1 < (hs ++ ':' :: ([] : List Char)).length) := by
      simp
    rw [if_neg hlen, if_pos rfl]
  · have hpos : 0 < ss.length := List.length_pos.mpr hss
    have hlen : hs.length + 1 < (hs ++ ':' :: ss).length := by
      simp only [List.length_append, List.length_cons]
      omega
    rw [if_pos hlen, hdrop, htake, if_neg hss]

/-- Counterexample to claim C3 as stated: an entry with a missing port is
completed with the compile-time default port 7946, not with the configured
membership port (here 8080); and an entry whose last colon is its final
character (port missing) is left unchanged rather than given any default
port. -/
theorem seeds_configured_port_counterexample :
    seeds "a" = ["a:7946"] ∧
    memPortOf { emptyEnv with memPort := "8080" } = 8080 ∧
    seeds "a" ≠ ["a:" ++ toString (memPortOf { emptyEnv with memPort := "8080" })] ∧
    seeds "b:" = ["b:"] ∧
    seeds "b:" ≠ ["b:" ++ toString DefaultGddMemPort] := by
  refine ⟨by decide, by decide, by decide, by decide, by decide⟩

/-- Claim C3 (amended): the seeds parser splits the seed string on commas
and rewrites each entry independently; an entry with no colon gets the
compile-time default membership port 7946 appended (not the configured
port); in an entry whose last colon is followed by a non-empty suffix, the
suffix is replaced by its decimal value when it parses as an integer and
by the default port 7946 otherwise; an entry ending in its last colon is
returned unchanged. -/
theorem seeds_amended (seedstr : String) (h : seedstr ≠ "")
    (entry hs ss : List Char) (hentry : ':' ∉ entry) (hss : ':' ∉ ss) :
    seeds seedstr = (splitComma seedstr.data).map (fun cs => String.mk (seedEntryCore cs)) ∧
    seedEntryCore entry = entry ++ (":" ++ toString DefaultGddMemPort).data ∧
    (ss = [] → seedEntryCore (hs ++ ':' :: ss) = hs ++ [':']) ∧
    (ss ≠ [] → atoi? (String.mk ss) = none →
      seedEntryCore (hs ++ ':' :: ss) = hs ++ (":" ++ toString DefaultGddMemPort).data) ∧
    (∀ n : Int, atoi? (String.mk ss) = some n →
      seedEntryCore (hs ++ ':' :: ss) = hs ++ (":" ++ toString n).data) := by
  refine ⟨by simp [seeds, h], seedEntryCore_no_colon entry hentry, ?_, ?_, ?_⟩
  · intro hempty
    rw [seedEntryCore_with_colon hs ss hss, if_pos hempty]
  · intro hne hnoparse
    rw [seedEntryCore_with_colon hs ss hss, if_neg hne, hnoparse]
  · intro n hparse
    have hne : ss ≠ [] := by
      intro hempty
      rw [hempty] at hparse
      exact Option.noConfusion ((rfl : atoi? (String.mk []) = none) ▸ hparse)
    rw [seedEntryCore_with_colon hs ss hss, if_neg hne, hparse]

/-- Witness for C3 (amended) on a concrete seed string exercising all
four entry shapes. -/
theorem seeds_amended_witness :
    seeds "a,bad:x,c:8080,d:" = ["a:7946", "bad:7946", "c:8080", "d:"] ∧
    seedEntryCore ("d".data ++ ':' :: []) = "d".data ++ [':'] ∧
    seedEntryCore ("bad".data ++ ':' :: "x".data) =
      "bad".data ++ (":" ++ toString DefaultGddMemPort).data ∧
    seedEntryCore ("c".data ++ ':' :: "8080".data) =
      "c".data ++ (":" ++ toString (8080 : Int)).data ∧
    seedEntryCore "a".data = "a".data ++ (":" ++ toString DefaultGddMemPort).data := by
  have hx := seeds_amended "a,bad:x,c:8080,d:" (by decide)
    "a".data "bad".data "x".data (by decide) (by decide)
  have hd := seeds_amended "a,bad:x,c:8080,d:" (by decide)
    "a".data "d".data [] (by decide) (by decide)
  have h8 := seeds_amended "a,bad:x,c:8080,d:" (by decide)
    "a".data "c".data "8080".data (by decide) (by decide)
  exact ⟨hx.1.trans (by decide), hd.2.2.1 rfl, hx.2.2.2.1 (by decide) (by decide),
    h8.2.2.2.2 8080 (by decide), hx.2.1⟩

/-- The three acceptance clauses of claim C9 for one duration field whose
value is `v`, read from environment string `s` with default `dflt` and
implicit unit `unit`: a bare integer is scaled by the unit, a duration
string is taken as written, anything else leaves the default. -/
def DurFieldSpec (v : Int) (s : String) (dflt unit : Int) : Prop :=
  (∀ n : Int, atoi? s = some n → v = n * unit) ∧
  (∀ d : Int, atoi? s = none → goParseDuration s = some d → v = d) ∧
  (atoi? s = none → goParseDuration s = none → v = dflt)

theorem durFromEnv_spec (s : String) (dflt unit : Int) :
    DurFieldSpec (durFromEnv s dflt unit) s dflt unit := by
  refine ⟨?_, ?_, ?_⟩
  · intro n h
    have hne : s ≠ "" := by
      intro he
      rw [he] at h
      exact Option.noConfusion ((rfl : atoi? "" = none) ▸ h)
    simp [durFromEnv, hne, h]
  · intro d h1 h2
    have hne : s ≠ "" := by
      intro he
      rw [he] at h2
      exact Option.noConfusion ((rfl : goParseDuration "" = none) ▸ h2)
    simp [durFromEnv, hne, h1, h2]
  · intro h1 h2
    by_cases hs : s = "" <;> simp [durFromEnv, hs, h1, h2]

/-- Claim C9: every duration option read by `newConf` accepts a bare
integer in its field's implicit unit (seconds, except milliseconds for the
gossip and weight intervals), accepts a duration string as written, and
keeps its documented default when the value parses as neither.  The
weight-interval clause applies when the weight is not pinned, the only
case in which that option is read. -/
theorem newConf_duration_parsing (env : Env) :
    DurFieldSpec (newConf env).probeInterval env.memProbeInterval
      (defaultDur DefaultGddMemProbeInterval) secNs ∧
    DurFieldSpec (newConf env).probeTimeout env.memProbeTimeout
      (defaultDur DefaultGddMemProbeTimeout) secNs ∧
    DurFieldSpec (newConf env).gossipInterval env.memGossipInterval
      (defaultDur DefaultGddMemGossipInterval) msNs ∧
    DurFieldSpec (newConf env).pushPullInterval env.memSyncInterval
      (defaultDur DefaultGddMemSyncInterval) secNs ∧
    DurFieldSpec (newConf env).tcpTimeout env.memTcpTimeout
      (defaultDur DefaultGddMemTCPTimeout) secNs ∧
    DurFieldSpec (newConf env).gossipToTheDeadTime env.memDeadTimeout
      (defaultDur DefaultGddMemDeadTimeout) secNs ∧
    DurFieldSpec (newConf env).deadNodeReclaimTime env.memReclaimTimeout
      (defaultDur DefaultGddMemReclaimTimeout) secNs ∧
    (effWeight env ≤ 0 →
      DurFieldSpec (newConf env).weightInterval env.memWeightInterval
        DefaultGddMemWeightInterval msNs) := by
  refine ⟨durFromEnv_spec _ _ _, durFromEnv_spec _ _ _, durFromEnv_spec _ _ _,
    durFromEnv_spec _ _ _, durFromEnv_spec _ _ _, durFromEnv_spec _ _ _,
    durFromEnv_spec _ _ _, ?_⟩
  intro hw
  have hv : (newConf env).weightInterval =
      durFromEnv env.memWeightInterval DefaultGddMemWeightInterval msNs := by
    show (if effWeight env > 0 then 0
          else durFromEnv env.memWeightInterval DefaultGddMemWeightInterval msNs) = _
    rw [if_neg (not_lt.mpr hw)]
  rw [hv]
  exact durFromEnv_spec _ _ _

/-- Environment used by the C9 witness: a bare integer, a duration
string, an unparseable string, and a bare integer for the weight
interval. -/
def envDur : Env :=
  { emptyEnv with memProbeInterval := "5", memGossipInterval := "300ms",
                  memTcpTimeout := "abc", memWeightInterval := "250" }

/-- Witness for C9 at `envDur`: `"5"` is read as 5 s, `"300ms"` as
300 ms, `"abc"` leaves the 10 s default, and `"250"` is read as 250 ms
for the (un-pinned) weight interval. -/
theorem newConf_duration_parsing_witness :
    (newConf envDur).probeInterval = 5000000000 ∧
    (newConf envDur).gossipInterval = 300000000 ∧
    (newConf envDur).tcpTimeout = 10000000000 ∧
    (newConf envDur).weightInterval = 250000000 := by
  have h := newConf_duration_parsing envDur
  refine ⟨(h.1.1 5 (by decide)).trans (by decide),
    (h.2.2.1.2.1 300000000 (by decide) (by decide)).trans (by decide),
    ((h.2.2.2.2.1.2.2) (by decide) (by decide)).trans (by decide),
    ((h.2.2.2.2.2.2.2 (by decide)).1 250 (by decide)).trans (by decide)⟩

/-- Claim C8: a pinned weight (>0) makes `newConf` set the weight
interval to 0, disabling recomputation; otherwise the weight interval is
the configured value (integer in milliseconds or duration string) or its
default. -/
theorem newConf_weight_interval (env : Env) :
    (effWeight env > 0 → (newConf env).weightInterval = 0) ∧
    (effWeight env ≤ 0 → ∀ n : Int, atoi? env.memWeightInterval = some n →
      (newConf env).weightInterval = n * msNs) ∧
    (effWeight env ≤ 0 → ∀ d : Int, atoi? env.memWeightInterval = none →
      goParseDuration env.memWeightInterval = some d →
      (newConf env).weightInterval = d) ∧
    (effWeight env ≤ 0 → atoi? env.memWeightInterval = none →
      goParseDuration env.memWeightInterval = none →
      (newConf env).weightInterval = DefaultGddMemWeightInterval) := by
  have hv : ∀ hw : effWeight env ≤ 0, (newConf env).weightInterval =
      durFromEnv env.memWeightInterval DefaultGddMemWeightInterval msNs := by
    intro hw
    show (if effWeight env > 0 then 0
          else durFromEnv env.memWeightInterval DefaultGddMemWeightInterval msNs) = _
    rw [if_neg (not_lt.mpr hw)]
  refine ⟨?_, ?_, ?_, ?_⟩
  · intro hw
    show (if effWeight env > 0 then 0
          else durFromEnv env.memWeightInterval DefaultGddMemWeightInterval msNs) = 0
    rw [if_pos hw]
  · intro hw n h
    rw [hv hw]
    exact (durFromEnv_spec _ _ _).1 n h
  · intro hw d h1 h2
    rw [hv hw]
    exact (durFromEnv_spec _ _ _).2.1 d h1 h2
  · intro hw h1 h2
    rw [hv hw]
    exact (durFromEnv_spec _ _ _).2.2 h1 h2

/-- Witness for C8: with `GDD_MEM_WEIGHT=5` the weight interval is forced
to 0; with the weight unset and `GDD_MEM_WEIGHT_INTERVAL=250` it is
250 ms. -/
theorem newConf_weight_interval_witness :
    (newConf { emptyEnv with memWeight := "5" }).weightInterval = 0 ∧
    (newConf envDur).weightInterval = 250000000 := by
  refine ⟨(newConf_weight_interval { emptyEnv with memWeight := "5" }).1 (by decide), ?_⟩
  exact (((newConf_weight_interval envDur).2.1 (by decide) 250 (by decide)).trans (by decide))

/-- Modelled from the spec: the service name is required and has no
default (`SERVICE_NAME` required, §6). -/
def DefaultGddServiceName : String := ""

/-- Modelled from the spec: the seed list has no default (empty). -/
def DefaultGddMemSeed : String := ""

/-- Modelled from the spec: default HTTP port advertised in the meta
(scenario 1 in §8 uses 6060); the claims do not depend on the value. -/
def DefaultGddPort : Int := 6060

/-- Modelled from the spec: default route root path; no value is stated,
empty assumed; the claims do not depend on it. -/
def DefaultGddRouteRootPath : String := ""

/-- The effective service name (node.go lines 289-292). -/
def effService (env : Env) : String :=
  if env.serviceName ≠ "" then env.serviceName else DefaultGddServiceName

/-- The effective seed string (node.go lines 61-64). -/
def effSeed (env : Env) : String :=
  if env.memSeed ≠ "" then env.memSeed else DefaultGddMemSeed

/-- The external inputs of `NewNode` and `join`: the process environment,
the outcome of `memberlist.Create` on the built configuration, the
outcome of `mlist.Join` on the parsed seed list (modelled from the spec:
the fork's `Join` is not among the provided sources; per §7 it errs
exactly when zero seeds are reachable), the clock, and build metadata
(the stdlib time parsing of the build stamp is abstracted by the
resulting string). -/
structure World where
  env : Env
  createOutcome : Except String Memberlist
  joinOutcome : Except String Nat
  now : Nat
  goVer : String
  gddVer : String
  buildUser : String
  buildTime : String
deriving DecidableEq, Repr

/-- Result of `join`: the returned error, plus whether the "No seed
found" warning was logged. -/
structure JoinRes where
  result : Except String Unit
  warnedNoSeed : Bool
deriving DecidableEq, Repr

/-- `join` from node.go: error when `mlist` is nil; with an empty parsed
seed list, log a warning and return nil; otherwise return the (wrapped)
outcome of `mlist.Join`. -/
def join (env : Env) (mlistOpt : Option Memberlist) (joinOutcome : Except String Nat) :
    JoinRes :=
  match mlistOpt with
  | none => { result := .error "mlist is nil", warnedNoSeed := false }
  | some _ =>
    if (seeds (effSeed env)).isEmpty then { result := .ok (), warnedNoSeed := true }
    else
      match joinOutcome with
      | .error e => { result := .error ("Failed to join cluster: " ++ e), warnedNoSeed := false }
      | .ok _ => { result := .ok (), warnedNoSeed := false }

/-- The local `mergedMeta` built by `NewNode` (node.go lines 296-331)
for a given service name and user data. -/
def buildMeta (w : World) (service : String) (d : UserData) : mergedMeta :=
  { meta := { service := service,
              routeRootPath :=
                if w.env.rootPath ≠ "" then w.env.rootPath else DefaultGddRouteRootPath,
              port := match atoi? w.env.port with | some p => p | none => DefaultGddPort,
              registerAt := some w.now,
              goVer := w.goVer,
              gddVer := w.gddVer,
              buildUser := w.buildUser,
              buildTime := w.buildTime,
              weight := effWeight w.env },
    data := d }

/-- Outcome of `NewNode`: the new package state, the returned error,
whether `memberlist.Create` was invoked, whether `mlist.Shutdown()` was
called on a join failure, the meta installed in the delegate, whether the
"No seed found" warning fired, and whether the broadcast queue global was
assigned. -/
structure NewNodeRes where
  state : RegistryState
  result : Except String Unit
  createInvoked : Bool
  shutdownCalled : Bool
  delegateMeta : Option mergedMeta
  warnedNoSeed : Bool
  queueSet : Bool
deriving DecidableEq, Repr

/-- `NewNode` from node.go.  `newConf` is evaluated first in Go; its
result only feeds the engine's creation, which is abstracted by
`w.createOutcome`.  On a create failure the Go assignment
`mlist, err = memberlist.Create(...)` leaves the global nil; on a join
failure `mlist.Shutdown()` is called but the global keeps pointing at the
(shut-down) engine. -/
def NewNode (w : World) (st0 : RegistryState) (data : List UserData) : NewNodeRes :=
  let service := effService w.env
  if service = "" then
    { state := st0,
      result := .error "NewNode() error: No env variable GDD_SERVICE_NAME found",
      createInvoked := false, shutdownCalled := false, delegateMeta := none,
      warnedNoSeed := false, queueSet := false }
  else
    let mmeta := buildMeta w service (data.head?.getD [])
    match w.createOutcome with
    | .error e =>
      { state := { st0 with mlist := none },
        result := .error ("NewNode() error: Failed to create memberlist: " ++ e),
        createInvoked := true, shutdownCalled := false, delegateMeta := some mmeta,
        warnedNoSeed := false, queueSet := true }
    | .ok m =>
      let jr := join w.env (some m) w.joinOutcome
      match jr.result with
      | .error e =>
        { state := { st0 with mlist := some m },
          result := .error ("NewNode() error: Node register failed: " ++ e),
          createInvoked := true, shutdownCalled := true, delegateMeta := some mmeta,
          warnedNoSeed := jr.warnedNoSeed, queueSet := true }
      | .ok _ =>
        { state := { st0 with mlist := some m },
          result := .ok (), createInvoked := true, shutdownCalled := false,
          delegateMeta := some mmeta, warnedNoSeed := jr.warnedNoSeed, queueSet := true }

theorem newNode_delegateMeta (w : World) (st : RegistryState) (data : List UserData) :
    (NewNode w st data).delegateMeta =
      if effService w.env = "" then none
      else some (buildMeta w (effService w.env) (data.head?.getD [])) := by
  unfold NewNode
  by_cases hs : effService w.env = ""
  · simp [hs]
  · rcases hc : w.createOutcome with e | m
    · simp [hs, hc]
    · simp only [hs, if_neg, ite_false, hc]
      cases hr : (join w.env (some m) w.joinOutcome).result <;> simp [hs, hr]

/-- Claim C6: with no service name configured (environment empty, and the
default is itself empty), `NewNode` fails with the missing-service-name
configuration error before the membership engine is created, leaving the
state untouched, and the error is returned to the caller. -/
theorem newNode_missing_service (w : World) (st : RegistryState) (data : List UserData)
    (h : w.env.serviceName = "") :
    DefaultGddServiceName = "" ∧
    (NewNode w st data).result =
      .error "NewNode() error: No env variable GDD_SERVICE_NAME found" ∧
    (NewNode w st data).createInvoked = false ∧
    (NewNode w st data).state = st := by
  have hs : effService w.env = "" := by simp [effService, h, DefaultGddServiceName]
  refine ⟨rfl, ?_, ?_, ?_⟩ <;> simp [NewNode, hs]

/-- A world whose environment is entirely unset. -/
def emptyWorld : World :=
  { env := emptyEnv, createOutcome := .ok sampleMlist, joinOutcome := .ok 1,
    now := 0, goVer := "go1.17", gddVer := "v1.0.0", buildUser := "u", buildTime := "" }

/-- Witness for C6 at a concrete world with no service name. -/
theorem newNode_missing_service_witness :
    (NewNode emptyWorld nilState []).result =
      .error "NewNode() error: No env variable GDD_SERVICE_NAME found" ∧
    (NewNode emptyWorld nilState []).createInvoked = false := by
  have h := newNode_missing_service emptyWorld nilState [] rfl
  exact ⟨h.2.1, h.2.2.1⟩

/-- Claim C7: only the first element of the variadic `data` parameter is
used — the whole outcome of `NewNode` is unchanged under any change of the
later elements — the installed delegate meta carries exactly the first
element as user data, and with no argument the user data is the empty
mapping. -/
theorem newNode_variadic_data (w : World) (st : RegistryState) (d1 : UserData)
    (rest rest' : List UserData) :
    NewNode w st (d1 :: rest) = NewNode w st (d1 :: rest') ∧
    (∀ mm : mergedMeta, (NewNode w st (d1 :: rest)).delegateMeta = some mm → mm.data = d1) ∧
    (∀ mm : mergedMeta, (NewNode w st []).delegateMeta = some mm → mm.data = []) := by
  refine ⟨rfl, ?_, ?_⟩
  · intro mm h
    rw [newNode_delegateMeta] at h
    by_cases hs : effService w.env = ""
    · rw [if_pos hs] at h
      exact Option.noConfusion h
    · rw [if_neg hs] at h
      rw [← Option.some.inj h]
      rfl
  · intro mm h
    rw [newNode_delegateMeta] at h
    by_cases hs : effService w.env = ""
    · rw [if_pos hs] at h
      exact Option.noConfusion h
    · rw [if_neg hs] at h
      rw [← Option.some.inj h]
      rfl

/-- A world with a configured service name. -/
def svcWorld : World :=
  { emptyWorld with env := { emptyEnv with serviceName := "svc" } }

/-- Witness for C7: the second variadic element is dropped, the first is
installed as the user data, and no element yields the empty mapping. -/
theorem newNode_variadic_data_witness :
    NewNode svcWorld nilState [[("k", "v")], [("x", "y")]] =
      NewNode svcWorld nilState [[("k", "v")]] ∧
    (buildMeta svcWorld "svc" [("k", "v")]).data = [("k", "v")] ∧
    (buildMeta svcWorld "svc" []).data = [] := by
  have h := newNode_variadic_data svcWorld nilState [("k", "v")] [[("x", "y")]] []
  exact ⟨h.1, h.2.1 (buildMeta svcWorld "svc" [("k", "v")]) (by decide),
    h.2.2 (buildMeta svcWorld "svc" []) (by decide)⟩

/-- Claim C2: with an empty parsed seed list, `join` logs the "No seed
found" warning and returns no error; with a non-empty seed list whose join
attempt fails (`mlist.Join` errs — per the spec, when no seed is
reachable), `join` returns an error, and `NewNode` then calls
`mlist.Shutdown()` and returns that error (wrapped) to the caller. -/
theorem join_seed_handling (w : World) (st : RegistryState) (m : Memberlist) :
    (seeds (effSeed w.env) = [] →
      join w.env (some m) w.joinOutcome = { result := .ok (), warnedNoSeed := true }) ∧
    (∀ e : String, seeds (effSeed w.env) ≠ [] → w.joinOutcome = .error e →
      join w.env (some m) w.joinOutcome =
        { result := .error ("Failed to join cluster: " ++ e), warnedNoSeed := false }) ∧
    (∀ (e : String) (data : List UserData),
      effService w.env ≠ "" → w.createOutcome = .ok m →
      seeds (effSeed w.env) ≠ [] → w.joinOutcome = .error e →
      (NewNode w st data).result =
        .error ("NewNode() error: Node register failed: " ++
          ("Failed to join cluster: " ++ e)) ∧
      (NewNode w st data).shutdownCalled = true) := by
  refine ⟨?_, ?_, ?_⟩
  · intro h
    simp [join, h]
  · intro e hne hj
    have hni : ¬ (seeds (effSeed w.env)).isEmpty := by
      simpa [List.isEmpty_iff] using hne
    simp [join, hni, hj]
  · intro e data hs hc hne hj
    have hni : ¬ (seeds (effSeed w.env)).isEmpty := by
      simpa [List.isEmpty_iff] using hne
    have hjr : join w.env (some m) w.joinOutcome =
        { result := .error ("Failed to join cluster: " ++ e), warnedNoSeed := false } := by
      simp [join, hni, hj]
    constructor <;> simp [NewNode, hs, hc, hjr]

/-- A world whose non-empty seed cannot be reached. -/
def joinFailWorld : World :=
  { emptyWorld with
    env := { emptyEnv with serviceName := "svc", memSeed := "127.0.0.1:7946" },
    joinOutcome := .error "no seed reachable" }

/-- Witness for C2: standalone start on an empty seed list; wrapped fatal
error and shutdown on an unreachable non-empty seed list. -/
theorem join_seed_handling_witness :
    join svcWorld.env (some sampleMlist) svcWorld.joinOutcome =
      { result := .ok (), warnedNoSeed := true } ∧
    (NewNode joinFailWorld nilState []).result =
      .error "NewNode() error: Node register failed: Failed to join cluster: no seed reachable" ∧
    (NewNode joinFailWorld nilState []).shutdownCalled = true := by
  have h1 := (join_seed_handling svcWorld nilState sampleMlist).1 (by decide)
  have h3 := (join_seed_handling joinFailWorld nilState sampleMlist).2.2
    "no seed reachable" [] (by decide) (by decide) (by decide) (by decide)
  exact ⟨h1, h3.1.trans (by decide), h3.2⟩
